import Mathlib

/-!
# casper-golang-sdk: the JSON-RPC client `sdk/rpc_client.go`

A shallow embedding of the client operations of `RpcClient` and proofs about them.

Modelling conventions.

* A Go `error` is modelled by its text; `Option String` is a Go `error` value and `none` is `nil`.
* A Go function returning `(T, error)` returns a pair here, exactly as in Go.
* A Go pointer is an `Option`; dereferencing `none` is the run-time abort
  "nil pointer dereference", recorded as `Outcome.nilDeref`.
* Every operation is a `Client` computation: it threads the list of request bodies posted to the
  node so far, so that the number and order of RPC calls is observable.
* `net/http` and `encoding/json` decoding are not part of the repository: the node is a function
  from the posted body to an `HttpResult`, and the decoders `json.Unmarshal(_, &T)` are the fields
  of a `Codec`. Theorems quantify over every node and every codec.
* `json.Marshal` of the request is modelled on JSON values (`Json`); the struct tags
  (`omitempty`) are followed field by field.
-/

namespace Sdk

/-! ## JSON values -/

/-- JSON values, the image of `json.Marshal`. A Go `interface{}` decoded from JSON is also
represented by such a value. -/
inductive Json where
  | null
  | bool (b : Bool)
  | num (n : Int)
  | str (s : String)
  | arr (xs : List Json)
  | obj (fields : List (String × Json))

/-! ## Wire types (`rpc_client.go`, lines 398-415) -/

/-- Go `RpcRequest`. `Params` is the `interface{}` value, kept in its marshalled form. -/
structure RpcRequest where
  Version : String := ""
  Id : String := ""
  Method : String := ""
  Params : Json := Json.null

/-- Go `RpcError`. -/
structure RpcError where
  Code : Int := 0
  Message : String := ""

/-- Go `RpcResponse`. `Result` is the `json.RawMessage`; `Error` is the `*RpcError`. -/
structure RpcResponse where
  Version : String := ""
  Id : String := ""
  Result : String := ""
  Error : Option RpcError := none

/-- The body `json.Marshal(RpcRequest{...})`: no field of `RpcRequest` carries `omitempty`. -/
def marshalRpcRequest (r : RpcRequest) : Json :=
  Json.obj [("jsonrpc", Json.str r.Version), ("id", Json.str r.Id),
    ("method", Json.str r.Method), ("params", r.Params)]

/-! ## Domain records -/

/-- Go `time.Time`, as seconds and nanoseconds since the zero instant. -/
structure Time where
  sec : Int := 0
  nsec : Nat := 0

/-- Go `TransferResponse`. -/
structure TransferResponse where
  ID : Nat := 0
  DeployHash : String := ""
  From : String := ""
  To : String := ""
  Source : String := ""
  Target : String := ""
  Amount : String := ""
  Gas : String := ""

/-- Go `BlockHeader`. -/
structure BlockHeader where
  ParentHash : String := ""
  StateRootHash : String := ""
  BodyHash : String := ""
  RandomBit : Bool := false
  AccumulatedSeed : String := ""
  Timestamp : Time := {}
  EraID : Int := 0
  Height : Int := 0
  ProtocolVersion : String := ""

/-- Go `BlockBody`. -/
structure BlockBody where
  Proposer : String := ""
  DeployHashes : List String := []
  TransferHashes : List String := []

/-- Go `Proof`. -/
structure Proof where
  PublicKey : String := ""
  Signature : String := ""

/-- Go `BlockResponse`. -/
structure BlockResponse where
  Hash : String := ""
  Header : BlockHeader := {}
  Body : BlockBody := {}
  Proofs : List Proof := []

/-- Go `JsonDeployHeader`. -/
structure JsonDeployHeader where
  Account : String := ""
  Timestamp : Time := {}
  TTL : String := ""
  GasPrice : Int := 0
  BodyHash : String := ""
  Dependencies : List String := []
  ChainName : String := ""

/-- Go `JsonApproval`. -/
structure JsonApproval where
  Signer : String := ""
  Signature : String := ""

/-- Go `Session`: the anonymous struct `Transfer` with its `Args [][]interface{}`. -/
structure Session where
  TransferArgs : List (List Json) := []

/-- Go `JsonDeploy`. -/
structure JsonDeploy where
  Hash : String := ""
  Header : JsonDeployHeader := {}
  Approvals : List JsonApproval := []
  Session : Session := {}

/-- Go `SuccessExecutionResult`. -/
structure SuccessExecutionResult where
  Transfers : List String := []
  Cost : String := ""
  ErrorMessage : String := ""

/-- Go `ExecutionResult`. -/
structure ExecutionResult where
  Success : Option SuccessExecutionResult := none
  ErrorMessage : Option String := none
  Failure : Option SuccessExecutionResult := none

/-- Go `JsonExecutionResult`. -/
structure JsonExecutionResult where
  BlockHash : String := ""
  Result : ExecutionResult := {}

/-- Go `DeployResult`; `({} : DeployResult)` is the Go value `DeployResult{}`. -/
structure DeployResult where
  Deploy : JsonDeploy := {}
  ExecutionResults : List JsonExecutionResult := []

/-- Go `JsonCLValue`. -/
structure JsonCLValue where
  Bytes : String := ""
  CLType : String := ""
  Parsed : Json := Json.null

/-- Go `NamedKey`. -/
structure NamedKey where
  Name : String := ""
  Key : String := ""

/-- Go `AssociatedKey`. -/
structure AssociatedKey where
  AccountHash : String := ""
  Weight : Nat := 0

/-- Go `ActionThresholds`. -/
structure ActionThresholds where
  Deployment : Nat := 0
  KeyManagement : Nat := 0

/-- Go `JsonAccount`. -/
structure JsonAccount where
  AccountHash : String := ""
  NamedKeys : List NamedKey := []
  MainPurse : String := ""
  AssociatedKeys : List AssociatedKey := []
  ActionThresholds : ActionThresholds := {}

/-- Go `JsonContractMetadata`. -/
structure JsonContractMetadata where
  ContractPackageHash : String := ""
  ContractWasmHash : String := ""
  ProtocolVersion : String := ""

/-- Go `JsonDeployInfo`. -/
structure JsonDeployInfo where
  DeployHash : String := ""
  Transfers : List String := []
  From : String := ""
  Source : String := ""
  Gas : String := ""

/-- Go `StoredValue`: seven pointer fields, each `nil` unless the variant was present. -/
structure StoredValue where
  CLValue : Option JsonCLValue := none
  Account : Option JsonAccount := none
  Contract : Option JsonContractMetadata := none
  ContractWASM : Option String := none
  ContractPackage : Option String := none
  Transfer : Option TransferResponse := none
  DeployInfo : Option JsonDeployInfo := none

/-- Go `storedValueResult`. -/
structure storedValueResult where
  StoredValue : StoredValue := {}

/-- Go `blockResult`. -/
structure blockResult where
  Block : BlockResponse := {}

/-- Go `blockIdentifier`; `Height` is a `uint64`. -/
structure blockIdentifier where
  Hash : String := ""
  Height : Nat := 0

/-- Go `blockParams`. -/
structure blockParams where
  BlockIdentifier : blockIdentifier := {}

/-- Go `balanceResponse`. -/
structure balanceResponse where
  BalanceValue : String := ""

/-- Go `StateRootHashResult`. -/
structure StateRootHashResult where
  StateRootHash : String := ""

/-- Go `StackInfo`; `bigint.BigInt` wraps a `big.Int`. -/
structure StackInfo where
  PublicKey : String := ""
  StakedAmount : Int := 0
  BondingPurse : String := ""
  Delegatee : String := ""

/-- The anonymous struct `Bid` inside Go `BidInfo`. -/
structure Bid where
  BondingPurse : String := ""
  StakedAmount : Int := 0
  DelegationRate : Int := 0
  Delegators : List StackInfo := []
  Inactive : Bool := false

/-- Go `BidInfo`. -/
structure BidInfo where
  PublicKey : String := ""
  Bid : Bid := {}

/-- Go `ValidatorWeight`. -/
structure ValidatorWeight where
  PublicKey : String := ""
  Weight : String := ""

/-- Go `EraValidators`. -/
structure EraValidators where
  EraId : Int := 0
  ValidatorWeights : List ValidatorWeight := []

/-- Go `AuctionState`. -/
structure AuctionState where
  StateRootHash : String := ""
  BlockHeight : Nat := 0
  EraValidators : List EraValidators := []
  Bids : List BidInfo := []

/-- Go `ValidatorPesponse` (spelled as in the source). -/
structure ValidatorPesponse where
  Version : String := ""
  AuctionState : AuctionState := {}

/-- The element type of `AccountInfo.Account.AssociatedKeys`. -/
structure AccountInfoAssociatedKey where
  AccountHash : String := ""
  Weight : Int := 0

/-- The anonymous struct `ActionThresholds` of `AccountInfo.Account`. -/
structure AccountInfoThresholds where
  Deployment : Int := 0
  KeyManagement : Int := 0

/-- The anonymous struct `Account` of Go `AccountInfo`. The two slices are `Option (List _)`
because `reflect.DeepEqual` tells a nil slice (`none`) from an empty one (`some []`). -/
structure AccountInfoAccount where
  AccountHash : String := ""
  NamedKeys : Option (List Json) := none
  MainPurse : String := ""
  AssociatedKeys : Option (List AccountInfoAssociatedKey) := none
  ActionThresholds : AccountInfoThresholds := {}

/-- Go `AccountInfo`; `({} : AccountInfo)` is the Go value `AccountInfo{}`. -/
structure AccountInfo where
  ApiVersion : String := ""
  Account : AccountInfoAccount := {}
  MerkleProof : String := ""

/-- The capability consumed from `keypair.KeyPair`: the string returned by `AccountHash()`. -/
structure KeyPair where
  AccountHash : String

/-- Go `RpcClient`. -/
structure RpcClient where
  endpoint : String

/-- Go `NewRpcClient`. -/
def NewRpcClient (endpoint : String) : RpcClient :=
  { endpoint := endpoint }

/-! ## The node, the decoders and the client computation -/

/-- What one `http.Post` followed by `ioutil.ReadAll` yields. -/
inductive HttpResult where
  /-- The call `http.Post` returned an error (network failure). -/
  | postFailed (err : String)
  /-- The call `ioutil.ReadAll(resp.Body)` returned an error. -/
  | readFailed (err : String)
  /-- A response with its status code and its whole body. -/
  | response (status : Int) (body : String)

/-- The node behind `http.Post`: endpoint, the bodies posted earlier, the body posted now. -/
abbrev Transport := String → List Json → Json → HttpResult

/-- The decoders `json.Unmarshal(data, &v)`, one per target type `v`; `Except.error` carries the
text of the error returned by `json.Unmarshal`. -/
structure Codec where
  unmarshalRpcResponse : String → Except String RpcResponse
  unmarshalDeployResult : String → Except String DeployResult
  unmarshalStoredValueResult : String → Except String storedValueResult
  unmarshalBalanceResponse : String → Except String balanceResponse
  unmarshalBlockResult : String → Except String blockResult
  unmarshalValidatorPesponse : String → Except String ValidatorPesponse
  unmarshalStateRootHashResult : String → Except String StateRootHashResult
  unmarshalAccountInfo : String → Except String AccountInfo

/-- The outside world of the client. -/
structure Env where
  net : Transport
  codec : Codec

/-- How a Go call ends: it returns, or the goroutine aborts on a nil pointer dereference. -/
inductive Outcome (α : Type) where
  | ret (a : α)
  | nilDeref

/-- A client computation: from the bodies posted so far to an outcome and the bodies posted
after it. -/
def Client (α : Type) : Type := List Json → Outcome α × List Json

/-- Sequencing of `Client` computations; an abort stops the computation and keeps the log. -/
def Client.bind {α β : Type} (m : Client α) (f : α → Client β) : Client β := fun sent =>
  match m sent with
  | (Outcome.ret a, sent1) => f a sent1
  | (Outcome.nilDeref, sent1) => (Outcome.nilDeref, sent1)

instance : Monad Client where
  pure a := fun sent => (Outcome.ret a, sent)
  bind := Client.bind

/-- One `http.Post`: the node answers and the body is appended to the log. -/
def httpPost (net : Transport) (endpoint : String) (body : Json) : Client HttpResult :=
  fun sent => (Outcome.ret (net endpoint sent body), sent ++ [body])

/-- Dereference of a Go pointer. -/
def deref {α : Type} : Option α → Client α
  | some a => pure a
  | none => fun sent => (Outcome.nilDeref, sent)

/-! ## `math/big`: `(*Int).SetString(s, 10)` -/

/-- The loop of `nat.scan` for base 10: consumes the longest run of decimal digits, returning the
accumulated value, the number of digits read and the unread rest. -/
def natScan : List Char → Nat → Nat → Nat × Nat × List Char
  | [], acc, count => (acc, count, [])
  | ch :: rest, acc, count =>
    if '0' ≤ ch ∧ ch ≤ '9' then natScan rest (10 * acc + (ch.toNat - '0'.toNat)) (count + 1)
    else (acc, count, ch :: rest)

/-- The call `z.SetString(s, 10)` on a receiver holding `z`: the value the receiver holds
afterwards and the success flag. The string must be an optional sign followed by one or more
decimal digits and nothing else. On failure Go leaves the value of the receiver undefined; the
value given here is what the implementation leaves behind (`Int.scan`, `Int.setFromScanner`). -/
def SetString (z : Int) (s : String) : Int × Bool :=
  match s.toList with
  | [] => (z, false)
  | ch :: rest =>
    let neg := ch == '-'
    let digits := if ch == '-' || ch == '+' then rest else ch :: rest
    match natScan digits 0 0 with
    | (abs, count, unread) =>
      if count == 0 then (0, false)
      else
        let v : Int := if neg then -(abs : Int) else (abs : Int)
        (v, unread.isEmpty)

/-! ## Request parameters -/

/-- The value `json.Marshal` gives a `blockIdentifier`: both fields are tagged `omitempty`, so a
field holding its zero value is left out. -/
def marshalBlockIdentifier (b : blockIdentifier) : Json :=
  Json.obj ((if b.Hash = "" then [] else [("Hash", Json.str b.Hash)]) ++
    (if b.Height = 0 then [] else [("Height", Json.num (b.Height : Int))]))

/-- The value `json.Marshal` gives a `blockParams`. -/
def marshalBlockParams (p : blockParams) : Json :=
  Json.obj [("block_identifier", marshalBlockIdentifier p.BlockIdentifier)]

/-! ## The operations of `RpcClient` -/

/-- Go `(*RpcClient).rpcCall`. `json.Marshal` cannot fail on the parameters the operations below
pass (string maps and `blockParams`), so the branch "failed to marshal json" is not reachable
from them. -/
def rpcCall (env : Env) (c : RpcClient) (method : String) (params : Json) :
    Client (RpcResponse × Option String) := do
  let body := marshalRpcRequest { Version := "2.0", Method := method, Params := params }
  let resp ← httpPost env.net c.endpoint body
  match resp with
  | HttpResult.postFailed err => return ({}, some ("failed to make request: " ++ err))
  | HttpResult.readFailed err => return ({}, some ("failed to get response body: " ++ err))
  | HttpResult.response status b =>
    if status < 200 ∨ status ≥ 300 then
      return ({ Error := some { Code := status, Message := b } },
        some ("request failed, status code - " ++ toString status ++ ", response - " ++ b))
    else
      match env.codec.unmarshalRpcResponse b with
      | Except.error err => return ({}, some ("failed to parse response body: " ++ err))
      | Except.ok rpcResponse =>
        match rpcResponse.Error with
        | some e =>
          return (rpcResponse, some ("rpc call failed, code - " ++ toString e.Code ++
            ", message - " ++ e.Message))
        | none => return (rpcResponse, none)

/-- Go `(*RpcClient).GetDeploy`. -/
def GetDeploy (env : Env) (c : RpcClient) (hash : String) :
    Client (DeployResult × Option String) := do
  let (resp, err) ← rpcCall env c "info_get_deploy" (Json.obj [("deploy_hash", Json.str hash)])
  match err with
  | some e =>
    let rpcError ← deref resp.Error
    if rpcError.Code = -32000 then return ({}, none)
    else return ({}, some e)
  | none =>
    match env.codec.unmarshalDeployResult resp.Result with
    | Except.error e => return ({}, some ("failed to get result: " ++ e))
    | Except.ok result => return (result, none)

/-- Go `(*RpcClient).GetStateItem`. The map is marshalled with its keys sorted. -/
def GetStateItem (env : Env) (c : RpcClient) (stateRootHash key : String) (path : List String) :
    Client (StoredValue × Option String) := do
  let params := Json.obj ([("key", Json.str key)] ++
    (if path.length > 0 then [("path", Json.arr (path.map Json.str))] else []) ++
    [("state_root_hash", Json.str stateRootHash)])
  let (resp, err) ← rpcCall env c "state_get_item" params
  match err with
  | some e => return ({}, some e)
  | none =>
    match env.codec.unmarshalStoredValueResult resp.Result with
    | Except.error e => return ({}, some ("failed to get result: " ++ e))
    | Except.ok result => return (result.StoredValue, none)

/-- Go `(*RpcClient).GetAccountBalance`. The result is a `*big.Int`: `none` is `nil`. The flag
returned by `SetString` is dropped, as in the source. -/
def GetAccountBalance (env : Env) (c : RpcClient) (stateRootHash balanceUref : String) :
    Client (Option Int × Option String) := do
  let (resp, err) ← rpcCall env c "state_get_balance"
    (Json.obj [("purse_uref", Json.str balanceUref), ("state_root_hash", Json.str stateRootHash)])
  match err with
  | some e => return (none, some e)
  | none =>
    match env.codec.unmarshalBalanceResponse resp.Result with
    | Except.error e => return (none, some ("failed to get result: " ++ e))
    | Except.ok result =>
      let balance : Int := 0
      let balance := (SetString balance result.BalanceValue).1
      return (some balance, none)

/-- Go `(*RpcClient).GetStateRootHash`. -/
def GetStateRootHash (env : Env) (c : RpcClient) :
    Client (StateRootHashResult × Option String) := do
  let (resp, err) ← rpcCall env c "chain_get_state_root_hash" Json.null
  match err with
  | some e => return ({}, some e)
  | none =>
    match env.codec.unmarshalStateRootHashResult resp.Result with
    | Except.error e => return ({}, some ("failed to get result: " ++ e))
    | Except.ok result => return (result, none)

/-- Go `(*RpcClient).GetAccountInfo`. -/
def GetAccountInfo (env : Env) (c : RpcClient) (publicKey : String) :
    Client (AccountInfo × Option String) := do
  let (resp, err) ← rpcCall env c "state_get_account_info"
    (Json.obj [("public_key", Json.str publicKey)])
  match err with
  | some e =>
    let rpcError ← deref resp.Error
    if rpcError.Code = -32003 then return ({}, none)
    else return ({}, some e)
  | none =>
    match env.codec.unmarshalAccountInfo resp.Result with
    | Except.error e => return ({}, some ("failed to get result: " ++ e))
    | Except.ok result => return (result, none)

/-- The test `reflect.DeepEqual(accountInfo, AccountInfo{})`: every field holds its zero value,
and both slices are nil. -/
def AccountInfo.deepEqualZero (a : AccountInfo) : Bool :=
  a.ApiVersion == "" && a.Account.AccountHash == "" && a.Account.NamedKeys.isNone &&
  a.Account.MainPurse == "" && a.Account.AssociatedKeys.isNone &&
  a.Account.ActionThresholds.Deployment == 0 && a.Account.ActionThresholds.KeyManagement == 0 &&
  a.MerkleProof == ""

/-- Go `(*RpcClient).GetLiquidBalance`. -/
def GetLiquidBalance (env : Env) (c : RpcClient) (publicKey : String) :
    Client (Option Int × Option String) := do
  let (stateRootHash, err) ← GetStateRootHash env c
  match err with
  | some e => return (none, some e)
  | none =>
    let (accountInfo, err) ← GetAccountInfo env c publicKey
    match err with
    | some e => return (none, some e)
    | none =>
      if accountInfo.deepEqualZero then return (some 0, none)
      else GetAccountBalance env c stateRootHash.StateRootHash accountInfo.Account.MainPurse

/-- Go `(*RpcClient).GetValidator`. The error text is the literal of the source. -/
def GetValidator (env : Env) (c : RpcClient) : Client (ValidatorPesponse × Option String) := do
  let (resp, err) ← rpcCall env c "state_get_auction_info" Json.null
  match err with
  | some e => return ({}, some e)
  | none =>
    match env.codec.unmarshalValidatorPesponse resp.Result with
    | Except.error _ => return ({}, some "failed to get result: #\x7berr\x7d")
    | Except.ok result => return (result, none)

/-- The inner loop of `GetStackingBalance`: `for j := range delegators`. -/
def appendMatching (publicKey : String) (infolist : List StackInfo) (delegators : List StackInfo) :
    List StackInfo :=
  delegators.foldl
    (fun acc d => if d.PublicKey = publicKey then acc ++ [d] else acc) infolist

/-- The outer loop of `GetStackingBalance`: `for i := range ValidatorInfo.AuctionState.Bids`,
starting from `make([]StackInfo, 0, 10)`. -/
def collectStacking (publicKey : String) (bids : List BidInfo) : List StackInfo :=
  bids.foldl (fun acc b => appendMatching publicKey acc b.Bid.Delegators) []

/-- Go `(*RpcClient).GetStackingBalance`. -/
def GetStackingBalance (env : Env) (c : RpcClient) (publicKey : String) :
    Client (List StackInfo × Option String) := do
  let (validatorInfo, err) ← GetValidator env c
  match err with
  | some e => return ([], some e)
  | none => return (collectStacking publicKey validatorInfo.AuctionState.Bids, none)

/-- Go `(*RpcClient).GetLatestBlock`. -/
def GetLatestBlock (env : Env) (c : RpcClient) : Client (BlockResponse × Option String) := do
  let (resp, err) ← rpcCall env c "chain_get_block" Json.null
  match err with
  | some e => return ({}, some e)
  | none =>
    match env.codec.unmarshalBlockResult resp.Result with
    | Except.error e => return ({}, some ("failed to get result: " ++ e))
    | Except.ok result => return (result.Block, none)

/-- Go `(*RpcClient).GetBlockByHeight`; `height` is a `uint64`. -/
def GetBlockByHeight (env : Env) (c : RpcClient) (height : Nat) :
    Client (BlockResponse × Option String) := do
  let (resp, err) ← rpcCall env c "chain_get_block"
    (marshalBlockParams { BlockIdentifier := { Height := height } })
  match err with
  | some e => return ({}, some e)
  | none =>
    match env.codec.unmarshalBlockResult resp.Result with
    | Except.error e => return ({}, some ("failed to get result: " ++ e))
    | Except.ok result => return (result.Block, none)

/-- Go `(*RpcClient).GetBlockByHash`. -/
def GetBlockByHash (env : Env) (c : RpcClient) (hash : String) :
    Client (BlockResponse × Option String) := do
  let (resp, err) ← rpcCall env c "chain_get_block"
    (marshalBlockParams { BlockIdentifier := { Hash := hash } })
  match err with
  | some e => return ({}, some e)
  | none =>
    match env.codec.unmarshalBlockResult resp.Result with
    | Except.error e => return ({}, some ("failed to get result: " ++ e))
    | Except.ok result => return (result.Block, none)

/-- Go `(*RpcClient).GetAccountMainPurseURef`. -/
def GetAccountMainPurseURef (env : Env) (c : RpcClient) (accountHash : String) :
    Client String := do
  let (block, err) ← GetLatestBlock env c
  match err with
  | some _ => return ""
  | none =>
    let (item, err) ← GetStateItem env c block.Header.StateRootHash accountHash []
    match err with
    | some _ => return ""
    | none =>
      let account ← deref item.Account
      return account.MainPurse

/-- Go `(*RpcClient).GetAccountBalanceByKeypair`. -/
def GetAccountBalanceByKeypair (env : Env) (c : RpcClient) (stateRootHash : String)
    (key : KeyPair) : Client (Option Int × Option String) := do
  let (item, err) ← GetStateItem env c stateRootHash key.AccountHash []
  match err with
  | some e => return (none, some e)
  | none =>
    let account ← deref item.Account
    GetAccountBalance env c stateRootHash account.MainPurse

/-! ## Statement vocabulary -/

/-- The body `rpcCall` posts for a method and its marshalled parameters. -/
def rpcBody (method : String) (params : Json) : Json :=
  marshalRpcRequest { Version := "2.0", Method := method, Params := params }

/-- The text `needle` occurs inside `text` (Go `strings.Contains`). -/
def Contains (text needle : String) : Prop :=
  needle.toList <:+: text.toList

instance (text needle : String) : Decidable (Contains text needle) :=
  inferInstanceAs (Decidable (needle.toList <:+: text.toList))

/-! ## Sample nodes and decoders

Concrete nodes and decoders on which the statements below are evaluated. A reply body is a
canned text and the sample decoders know the canned texts. -/

/-- A node that cannot be reached: every `http.Post` fails. -/
def netDown : Transport :=
  fun _ _ _ => HttpResult.postFailed "dial tcp: connection refused"

/-- A node that answers every request with the same status and body. -/
def netConst (status : Int) (body : String) : Transport :=
  fun _ _ _ => HttpResult.response status body

/-- The `method` member of a posted request body. -/
def methodOf : Json → String
  | Json.obj [_, _, (_, Json.str m), _] => m
  | _ => ""

/-- A node that answers with status 200 and a body chosen from the method of the request. -/
def netByMethod (table : String → String) : Transport :=
  fun _ _ body => HttpResult.response 200 (table (methodOf body))

/-- Decoders that reject every input. -/
def rejectAll : Codec where
  unmarshalRpcResponse := fun _ => Except.error "unexpected end of JSON input"
  unmarshalDeployResult := fun _ => Except.error "unexpected end of JSON input"
  unmarshalStoredValueResult := fun _ => Except.error "unexpected end of JSON input"
  unmarshalBalanceResponse := fun _ => Except.error "unexpected end of JSON input"
  unmarshalBlockResult := fun _ => Except.error "unexpected end of JSON input"
  unmarshalValidatorPesponse := fun _ => Except.error "unexpected end of JSON input"
  unmarshalStateRootHashResult := fun _ => Except.error "unexpected end of JSON input"
  unmarshalAccountInfo := fun _ => Except.error "unexpected end of JSON input"

/-- The sample envelope decoder: four canned envelopes, anything else is malformed. -/
def sampleEnvelope (b : String) : Except String RpcResponse :=
  if b = "envelope: error -32000 deploy not found" then
    Except.ok { Version := "2.0", Error := some { Code := -32000, Message := "deploy not found" } }
  else if b = "envelope: error -32003 no such account" then
    Except.ok { Version := "2.0", Error := some { Code := -32003, Message := "no such account" } }
  else if b = "envelope: error -32602 invalid params" then
    Except.ok { Version := "2.0", Error := some { Code := -32602, Message := "invalid params" } }
  else if b = "envelope: result" then
    Except.ok { Version := "2.0", Result := "result" }
  else Except.error "invalid character"

/-- Two bids: the first has delegators `k1`, `k2`, `k1`; the second has delegator `k1`. -/
def sampleBids : List BidInfo :=
  [{ PublicKey := "v1", Bid := { Delegators :=
      [{ PublicKey := "k1", StakedAmount := 5, Delegatee := "v1" },
       { PublicKey := "k2", StakedAmount := 7, Delegatee := "v1" },
       { PublicKey := "k1", StakedAmount := 11, Delegatee := "v1" }] } },
   { PublicKey := "v2", Bid := { Delegators :=
      [{ PublicKey := "k1", StakedAmount := 13, Delegatee := "v2" }] } }]

/-- The sample decoders: the canned envelopes, and one canned value per result type. -/
def sampleCodec (balanceValue : String) (stored : StoredValue) : Codec where
  unmarshalRpcResponse := sampleEnvelope
  unmarshalDeployResult := fun _ => Except.ok { Deploy := { Hash := "d0" } }
  unmarshalStoredValueResult := fun _ => Except.ok { StoredValue := stored }
  unmarshalBalanceResponse := fun _ => Except.ok { BalanceValue := balanceValue }
  unmarshalBlockResult := fun _ => Except.ok { Block := { Header := { StateRootHash := "s0" } } }
  unmarshalValidatorPesponse := fun _ => Except.ok { AuctionState := { Bids := sampleBids } }
  unmarshalStateRootHashResult := fun _ => Except.ok { StateRootHash := "s0" }
  unmarshalAccountInfo := fun _ => Except.ok { Account := { MainPurse := "uref-1" } }

/-- A node answering every request with the envelope `deploy not found`, code -32000. -/
def envDeployNotFound : Env where
  net := netConst 200 "envelope: error -32000 deploy not found"
  codec := sampleCodec "0" {}

/-- A node that knows the state root hash and answers `state_get_account_info` with the
envelope `no such account`, code -32003. -/
def envAccountAbsent : Env where
  net := netByMethod (fun m =>
    if m = "state_get_account_info" then "envelope: error -32003 no such account"
    else "envelope: result")
  codec := sampleCodec "0" {}

/-- A node that cannot be reached. -/
def envDown : Env where
  net := netDown
  codec := rejectAll

/-- A node answering status 200 with a body that is not a JSON envelope. -/
def envMalformed : Env where
  net := netConst 200 "<html>"
  codec := sampleCodec "0" {}

/-- A node answering every request successfully; `state_get_balance` carries `balanceValue` and
`state_get_item` carries `stored`. -/
def envOk (balanceValue : String) (stored : StoredValue) : Env where
  net := netConst 200 "envelope: result"
  codec := sampleCodec balanceValue stored

/-- A stored value holding a `CLValue` and no `Account`. -/
def storedCLValue : StoredValue :=
  { CLValue := some { Bytes := "01", CLType := "U8", Parsed := Json.num 1 } }

/-- A node that serves the latest block and answers `state_get_item` with the envelope
`invalid params`, code -32602. -/
def envItemFails : Env where
  net := netByMethod (fun m =>
    if m = "state_get_item" then "envelope: error -32602 invalid params"
    else "envelope: result")
  codec := sampleCodec "0" {}

/-- The sample client. -/
def sampleClient : RpcClient := NewRpcClient "http://localhost:7777/rpc"

/-! ## `rpcCall` -/

theorem rpcCall_postFailed (env : Env) (c : RpcClient) (method : String) (params : Json)
    (sent : List Json) (e : String)
    (hnet : env.net c.endpoint sent (rpcBody method params) = HttpResult.postFailed e) :
    rpcCall env c method params sent =
      (Outcome.ret ({}, some ("failed to make request: " ++ e)),
        sent ++ [rpcBody method params]) := by
  simp only [rpcBody] at hnet
  simp [rpcCall, httpPost, bind, Client.bind, pure, rpcBody, hnet]

theorem rpcCall_readFailed (env : Env) (c : RpcClient) (method : String) (params : Json)
    (sent : List Json) (e : String)
    (hnet : env.net c.endpoint sent (rpcBody method params) = HttpResult.readFailed e) :
    rpcCall env c method params sent =
      (Outcome.ret ({}, some ("failed to get response body: " ++ e)),
        sent ++ [rpcBody method params]) := by
  simp only [rpcBody] at hnet
  simp [rpcCall, httpPost, bind, Client.bind, pure, rpcBody, hnet]

theorem rpcCall_status (env : Env) (c : RpcClient) (method : String) (params : Json)
    (sent : List Json) (s : Int) (b : String) (hs : s < 200 ∨ 300 ≤ s)
    (hnet : env.net c.endpoint sent (rpcBody method params) = HttpResult.response s b) :
    rpcCall env c method params sent =
      (Outcome.ret ({ Error := some { Code := s, Message := b } },
          some ("request failed, status code - " ++ toString s ++ ", response - " ++ b)),
        sent ++ [rpcBody method params]) := by
  simp only [rpcBody] at hnet
  simp [rpcCall, httpPost, bind, Client.bind, pure, rpcBody, hnet, hs]

theorem rpcCall_malformed (env : Env) (c : RpcClient) (method : String) (params : Json)
    (sent : List Json) (s : Int) (b e : String) (hlo : 200 ≤ s) (hhi : s < 300)
    (hnet : env.net c.endpoint sent (rpcBody method params) = HttpResult.response s b)
    (hdec : env.codec.unmarshalRpcResponse b = Except.error e) :
    rpcCall env c method params sent =
      (Outcome.ret ({}, some ("failed to parse response body: " ++ e)),
        sent ++ [rpcBody method params]) := by
  simp only [rpcBody] at hnet
  have h : ¬ (s < 200 ∨ 300 ≤ s) := by omega
  simp [rpcCall, httpPost, bind, Client.bind, pure, rpcBody, hnet, h, hdec]

theorem rpcCall_rpcError (env : Env) (c : RpcClient) (method : String) (params : Json)
    (sent : List Json) (s : Int) (b : String) (resp : RpcResponse) (e : RpcError)
    (hlo : 200 ≤ s) (hhi : s < 300)
    (hnet : env.net c.endpoint sent (rpcBody method params) = HttpResult.response s b)
    (hdec : env.codec.unmarshalRpcResponse b = Except.ok resp) (herr : resp.Error = some e) :
    rpcCall env c method params sent =
      (Outcome.ret (resp, some ("rpc call failed, code - " ++ toString e.Code ++
          ", message - " ++ e.Message)),
        sent ++ [rpcBody method params]) := by
  simp only [rpcBody] at hnet
  have h : ¬ (s < 200 ∨ 300 ≤ s) := by omega
  simp [rpcCall, httpPost, bind, Client.bind, pure, rpcBody, hnet, h, hdec, herr]

theorem rpcCall_success (env : Env) (c : RpcClient) (method : String) (params : Json)
    (sent : List Json) (s : Int) (b : String) (resp : RpcResponse)
    (hlo : 200 ≤ s) (hhi : s < 300)
    (hnet : env.net c.endpoint sent (rpcBody method params) = HttpResult.response s b)
    (hdec : env.codec.unmarshalRpcResponse b = Except.ok resp) (herr : resp.Error = none) :
    rpcCall env c method params sent =
      (Outcome.ret (resp, none), sent ++ [rpcBody method params]) := by
  simp only [rpcBody] at hnet
  have h : ¬ (s < 200 ∨ 300 ≤ s) := by omega
  simp [rpcCall, httpPost, bind, Client.bind, pure, rpcBody, hnet, h, hdec, herr]

/-- Every `rpcCall` returns (it never aborts) and posts exactly one body. -/
theorem rpcCall_returns (env : Env) (c : RpcClient) (method : String) (params : Json)
    (sent : List Json) :
    ∃ r, rpcCall env c method params sent = (Outcome.ret r, sent ++ [rpcBody method params]) := by
  cases hnet : env.net c.endpoint sent (rpcBody method params) with
  | postFailed e => exact ⟨_, rpcCall_postFailed env c method params sent e hnet⟩
  | readFailed e => exact ⟨_, rpcCall_readFailed env c method params sent e hnet⟩
  | response s b =>
    by_cases hs : s < 200 ∨ 300 ≤ s
    · exact ⟨_, rpcCall_status env c method params sent s b hs hnet⟩
    · have hlo : 200 ≤ s := by omega
      have hhi : s < 300 := by omega
      cases hdec : env.codec.unmarshalRpcResponse b with
      | error e => exact ⟨_, rpcCall_malformed env c method params sent s b e hlo hhi hnet hdec⟩
      | ok resp =>
        cases herr : resp.Error with
        | none => exact ⟨_, rpcCall_success env c method params sent s b resp hlo hhi hnet hdec herr⟩
        | some e =>
          exact ⟨_, rpcCall_rpcError env c method params sent s b resp e hlo hhi hnet hdec herr⟩

/-! ## `rpcCall`: statuses outside 200..299 -/

/-- Claim C4. For every status `s` outside 200..299 and every body `b`, `rpcCall` returns the
response whose only populated field is the structured error with code `s` and message `b` (the raw
body), together with a non-nil error whose text contains `b`; the outcome is the same whatever
the envelope decoder is, so the body is not parsed. -/
theorem rpcCall_status_outside_2xx (net : Transport) (codec : Codec) (c : RpcClient)
    (method : String) (params : Json) (sent : List Json) (s : Int) (b : String)
    (hs : ¬ (200 ≤ s ∧ s ≤ 299))
    (hnet : net c.endpoint sent (rpcBody method params) = HttpResult.response s b) :
    ∃ text : String,
      rpcCall { net := net, codec := codec } c method params sent =
        (Outcome.ret ({ Error := some { Code := s, Message := b } }, some text),
          sent ++ [rpcBody method params]) ∧
      text = "request failed, status code - " ++ toString s ++ ", response - " ++ b ∧
      Contains text b ∧
      ∀ codec2 : Codec,
        rpcCall { net := net, codec := codec2 } c method params sent =
          rpcCall { net := net, codec := codec } c method params sent := by
  have hs2 : s < 200 ∨ 300 ≤ s := by omega
  refine ⟨_, rpcCall_status ⟨net, codec⟩ c method params sent s b hs2 hnet, rfl, ?_, ?_⟩
  · exact ⟨("request failed, status code - " ++ toString s ++ ", response - ").toList, [],
      by simp [String.toList]⟩
  · intro codec2
    rw [rpcCall_status ⟨net, codec2⟩ c method params sent s b hs2 hnet,
      rpcCall_status ⟨net, codec⟩ c method params sent s b hs2 hnet]

/-- Claim C4 on a node answering 500 with the body `internal error`. -/
theorem rpcCall_status_outside_2xx_witness :
    ¬ (200 ≤ (500 : Int) ∧ (500 : Int) ≤ 299) ∧
    ∃ text : String,
      rpcCall { net := netConst 500 "internal error", codec := rejectAll } sampleClient
          "info_get_deploy" (Json.obj [("deploy_hash", Json.str "d0")]) [] =
        (Outcome.ret ({ Error := some { Code := 500, Message := "internal error" } }, some text),
          [] ++ [rpcBody "info_get_deploy" (Json.obj [("deploy_hash", Json.str "d0")])]) ∧
      text = "request failed, status code - " ++ toString (500 : Int) ++ ", response - " ++
        "internal error" ∧
      Contains text "internal error" ∧
      ∀ codec2 : Codec,
        rpcCall { net := netConst 500 "internal error", codec := codec2 } sampleClient
            "info_get_deploy" (Json.obj [("deploy_hash", Json.str "d0")]) [] =
          rpcCall { net := netConst 500 "internal error", codec := rejectAll } sampleClient
            "info_get_deploy" (Json.obj [("deploy_hash", Json.str "d0")]) [] :=
  ⟨by decide,
    rpcCall_status_outside_2xx (netConst 500 "internal error") rejectAll sampleClient
      "info_get_deploy" (Json.obj [("deploy_hash", Json.str "d0")]) [] 500 "internal error"
      (by decide) rfl⟩

/-! ## `GetDeploy` -/

/-- Claim C1. When the node answers `info_get_deploy` with a 2xx status and an envelope carrying a
non-null RPC error of code `code`, `GetDeploy` returns, and it returns no error exactly when
`code = -32000`; the result is then the empty `DeployResult`, and for every other code the error
is non-nil and its text carries the code and the message. -/
theorem GetDeploy_rpc_error (env : Env) (c : RpcClient) (hash : String) (sent : List Json)
    (s : Int) (b : String) (resp : RpcResponse) (code : Int) (message : String)
    (hlo : 200 ≤ s) (hhi : s ≤ 299)
    (hnet : env.net c.endpoint sent
      (rpcBody "info_get_deploy" (Json.obj [("deploy_hash", Json.str hash)])) =
        HttpResult.response s b)
    (hdec : env.codec.unmarshalRpcResponse b = Except.ok resp)
    (herr : resp.Error = some { Code := code, Message := message }) :
    ∃ (result : DeployResult) (err : Option String),
      GetDeploy env c hash sent =
        (Outcome.ret (result, err),
          sent ++ [rpcBody "info_get_deploy" (Json.obj [("deploy_hash", Json.str hash)])]) ∧
      (err = none ↔ code = -32000) ∧
      (code = -32000 → result = {} ∧ err = none) ∧
      (code ≠ -32000 → err = some ("rpc call failed, code - " ++ toString code ++
        ", message - " ++ message)) := by
  have hcall := rpcCall_rpcError env c "info_get_deploy"
    (Json.obj [("deploy_hash", Json.str hash)]) sent s b resp _ hlo (by omega) hnet hdec herr
  by_cases hc : code = -32000
  · refine ⟨{}, none, ?_, by simp [hc], fun _ => ⟨rfl, rfl⟩, fun h => absurd hc h⟩
    simp [GetDeploy, bind, Client.bind, pure, hcall, herr, deref, hc]
  · refine ⟨{}, some ("rpc call failed, code - " ++ toString code ++ ", message - " ++ message),
      ?_, by simp [hc], fun h => absurd h hc, fun _ => rfl⟩
    simp [GetDeploy, bind, Client.bind, pure, hcall, herr, deref, hc]

/-- Claim C1 on a node answering `deploy not found` with code -32000. -/
theorem GetDeploy_rpc_error_witness :
    ∃ (result : DeployResult) (err : Option String),
      GetDeploy envDeployNotFound sampleClient "d0" [] =
        (Outcome.ret (result, err),
          [] ++ [rpcBody "info_get_deploy" (Json.obj [("deploy_hash", Json.str "d0")])]) ∧
      (err = none ↔ (-32000 : Int) = -32000) ∧
      ((-32000 : Int) = -32000 → result = {} ∧ err = none) ∧
      ((-32000 : Int) ≠ -32000 → err = some ("rpc call failed, code - " ++
        toString (-32000 : Int) ++ ", message - " ++ "deploy not found")) :=
  GetDeploy_rpc_error envDeployNotFound
    sampleClient "d0" [] 200 "envelope: error -32000 deploy not found"
    { Version := "2.0", Error := some { Code := -32000, Message := "deploy not found" } }
    (-32000) "deploy not found" (by decide) (by decide) rfl rfl rfl

/-! ## One request per call -/

theorem GetStateRootHash_sent (env : Env) (c : RpcClient) (sent : List Json) :
    (GetStateRootHash env c sent).2 = sent ++ [rpcBody "chain_get_state_root_hash" Json.null] := by
  obtain ⟨⟨resp, err⟩, hcall⟩ := rpcCall_returns env c "chain_get_state_root_hash" Json.null sent
  cases err with
  | some e => simp [GetStateRootHash, bind, Client.bind, pure, hcall]
  | none =>
    cases hdec : env.codec.unmarshalStateRootHashResult resp.Result <;>
      simp [GetStateRootHash, bind, Client.bind, pure, hcall, hdec]

theorem GetAccountInfo_sent (env : Env) (c : RpcClient) (publicKey : String) (sent : List Json) :
    (GetAccountInfo env c publicKey sent).2 =
      sent ++ [rpcBody "state_get_account_info" (Json.obj [("public_key", Json.str publicKey)])] := by
  obtain ⟨⟨resp, err⟩, hcall⟩ := rpcCall_returns env c "state_get_account_info"
    (Json.obj [("public_key", Json.str publicKey)]) sent
  cases err with
  | some e =>
    cases herr : resp.Error with
    | none => simp [GetAccountInfo, bind, Client.bind, pure, hcall, herr, deref]
    | some re =>
      by_cases hc : re.Code = -32003 <;>
        simp [GetAccountInfo, bind, Client.bind, pure, hcall, herr, deref, hc]
  | none =>
    cases hdec : env.codec.unmarshalAccountInfo resp.Result <;>
      simp [GetAccountInfo, bind, Client.bind, pure, hcall, hdec]

theorem GetLatestBlock_sent (env : Env) (c : RpcClient) (sent : List Json) :
    (GetLatestBlock env c sent).2 = sent ++ [rpcBody "chain_get_block" Json.null] := by
  obtain ⟨⟨resp, err⟩, hcall⟩ := rpcCall_returns env c "chain_get_block" Json.null sent
  cases err with
  | some e => simp [GetLatestBlock, bind, Client.bind, pure, hcall]
  | none =>
    cases hdec : env.codec.unmarshalBlockResult resp.Result <;>
      simp [GetLatestBlock, bind, Client.bind, pure, hcall, hdec]

/-- When the envelope carries the RPC error code -32003, `GetAccountInfo` returns `AccountInfo{}`
and no error. -/
theorem GetAccountInfo_absent (env : Env) (c : RpcClient) (publicKey : String) (sent : List Json)
    (s : Int) (b : String) (resp : RpcResponse) (message : String)
    (hlo : 200 ≤ s) (hhi : s ≤ 299)
    (hnet : env.net c.endpoint sent
      (rpcBody "state_get_account_info" (Json.obj [("public_key", Json.str publicKey)])) =
        HttpResult.response s b)
    (hdec : env.codec.unmarshalRpcResponse b = Except.ok resp)
    (herr : resp.Error = some { Code := -32003, Message := message }) :
    GetAccountInfo env c publicKey sent =
      (Outcome.ret ({}, none),
        sent ++ [rpcBody "state_get_account_info"
          (Json.obj [("public_key", Json.str publicKey)])]) := by
  have hcall := rpcCall_rpcError env c "state_get_account_info"
    (Json.obj [("public_key", Json.str publicKey)]) sent s b resp _ hlo (by omega) hnet hdec herr
  simp [GetAccountInfo, bind, Client.bind, pure, hcall, herr, deref]

/-! ## `GetLiquidBalance` -/

/-- Claim C2. When the state-root-hash call succeeds and the account-info step yields the
all-empty `AccountInfo` with no error, `GetLiquidBalance` returns exactly the integer 0 with no
error, and the requests it posted are exactly `chain_get_state_root_hash` followed by
`state_get_account_info` (no `state_get_balance`). In particular this is so when the node answers
`state_get_account_info` with a 2xx envelope carrying the RPC error code -32003. -/
theorem GetLiquidBalance_account_absent (env : Env) (c : RpcClient) (publicKey : String)
    (sent : List Json) (root : StateRootHashResult) (sent1 : List Json)
    (hroot : GetStateRootHash env c sent = (Outcome.ret (root, none), sent1)) :
    (∀ sent2 : List Json,
      GetAccountInfo env c publicKey sent1 = (Outcome.ret ({}, none), sent2) →
      GetLiquidBalance env c publicKey sent =
        (Outcome.ret (some 0, none),
          sent ++ [rpcBody "chain_get_state_root_hash" Json.null,
            rpcBody "state_get_account_info" (Json.obj [("public_key", Json.str publicKey)])])) ∧
    (∀ (s : Int) (b : String) (resp : RpcResponse) (message : String),
      200 ≤ s → s ≤ 299 →
      env.net c.endpoint sent1
        (rpcBody "state_get_account_info" (Json.obj [("public_key", Json.str publicKey)])) =
          HttpResult.response s b →
      env.codec.unmarshalRpcResponse b = Except.ok resp →
      resp.Error = some { Code := -32003, Message := message } →
      GetLiquidBalance env c publicKey sent =
        (Outcome.ret (some 0, none),
          sent ++ [rpcBody "chain_get_state_root_hash" Json.null,
            rpcBody "state_get_account_info" (Json.obj [("public_key", Json.str publicKey)])])) := by
  have hsent1 : sent1 = sent ++ [rpcBody "chain_get_state_root_hash" Json.null] := by
    have h := GetStateRootHash_sent env c sent
    rw [hroot] at h
    exact h
  have key : ∀ sent2 : List Json,
      GetAccountInfo env c publicKey sent1 = (Outcome.ret ({}, none), sent2) →
      GetLiquidBalance env c publicKey sent =
        (Outcome.ret (some 0, none),
          sent ++ [rpcBody "chain_get_state_root_hash" Json.null,
            rpcBody "state_get_account_info" (Json.obj [("public_key", Json.str publicKey)])]) := by
    intro sent2 hinfo
    have hsent2 : sent2 = sent1 ++ [rpcBody "state_get_account_info"
        (Json.obj [("public_key", Json.str publicKey)])] := by
      have h := GetAccountInfo_sent env c publicKey sent1
      rw [hinfo] at h
      exact h
    have hzero : AccountInfo.deepEqualZero {} = true := rfl
    subst hsent2
    subst hsent1
    simp [GetLiquidBalance, bind, Client.bind, pure, hroot, hinfo, hzero]
  refine ⟨key, ?_⟩
  intro s b resp message hlo hhi hnet hdec herr
  exact key _ (GetAccountInfo_absent env c publicKey sent1 s b resp message hlo hhi hnet hdec herr)

/-- Claim C2 on a node that answers `state_get_account_info` with the RPC error code -32003. -/
theorem GetLiquidBalance_account_absent_witness :
    GetStateRootHash envAccountAbsent sampleClient [] =
      (Outcome.ret ({ StateRootHash := "s0" }, none),
        [rpcBody "chain_get_state_root_hash" Json.null]) ∧
    GetLiquidBalance envAccountAbsent sampleClient "01abcd" [] =
      (Outcome.ret (some 0, none),
        [] ++ [rpcBody "chain_get_state_root_hash" Json.null,
          rpcBody "state_get_account_info" (Json.obj [("public_key", Json.str "01abcd")])]) :=
  ⟨rfl,
    (GetLiquidBalance_account_absent envAccountAbsent sampleClient "01abcd" []
      { StateRootHash := "s0" } [rpcBody "chain_get_state_root_hash" Json.null] rfl).2
      200 "envelope: error -32003 no such account"
      { Version := "2.0", Error := some { Code := -32003, Message := "no such account" } }
      "no such account" (by decide) (by decide) rfl rfl rfl⟩

/-! ## Transport failures in `GetDeploy` and `GetAccountInfo` -/

/-- Whenever `rpcCall` fails without a structured error (`resp.Error` is nil), the test
`resp.Error.Code == -32000` of `GetDeploy` dereferences a nil pointer. -/
theorem GetDeploy_nil_error (env : Env) (c : RpcClient) (hash : String) (sent sent1 : List Json)
    (resp : RpcResponse) (e : String) (hnil : resp.Error = none)
    (hcall : rpcCall env c "info_get_deploy" (Json.obj [("deploy_hash", Json.str hash)]) sent =
      (Outcome.ret (resp, some e), sent1)) :
    GetDeploy env c hash sent = (Outcome.nilDeref, sent1) := by
  simp [GetDeploy, bind, Client.bind, hcall, hnil, deref]

/-- Whenever `rpcCall` fails without a structured error, the test `resp.Error.Code == -32003` of
`GetAccountInfo` dereferences a nil pointer. -/
theorem GetAccountInfo_nil_error (env : Env) (c : RpcClient) (publicKey : String)
    (sent sent1 : List Json) (resp : RpcResponse) (e : String) (hnil : resp.Error = none)
    (hcall : rpcCall env c "state_get_account_info"
      (Json.obj [("public_key", Json.str publicKey)]) sent = (Outcome.ret (resp, some e), sent1)) :
    GetAccountInfo env c publicKey sent = (Outcome.nilDeref, sent1) := by
  simp [GetAccountInfo, bind, Client.bind, hcall, hnil, deref]

/-- Claim C3, evaluated. On a node that cannot be reached, and on a node answering status 200
with a body that is not a JSON envelope, `GetDeploy` and `GetAccountInfo` do not return an error:
they abort on a nil pointer dereference, after posting their one request. -/
theorem transport_failure_aborts :
    GetDeploy envDown sampleClient "d0" [] =
      (Outcome.nilDeref, [rpcBody "info_get_deploy" (Json.obj [("deploy_hash", Json.str "d0")])]) ∧
    GetAccountInfo envDown sampleClient "01abcd" [] =
      (Outcome.nilDeref,
        [rpcBody "state_get_account_info" (Json.obj [("public_key", Json.str "01abcd")])]) ∧
    GetDeploy envMalformed sampleClient "d0" [] =
      (Outcome.nilDeref, [rpcBody "info_get_deploy" (Json.obj [("deploy_hash", Json.str "d0")])]) ∧
    GetAccountInfo envMalformed sampleClient "01abcd" [] =
      (Outcome.nilDeref,
        [rpcBody "state_get_account_info" (Json.obj [("public_key", Json.str "01abcd")])]) :=
  ⟨rfl, rfl, rfl, rfl⟩

/-! ## `GetStackingBalance` -/

theorem appendMatching_eq (publicKey : String) (delegators infolist : List StackInfo) :
    appendMatching publicKey infolist delegators =
      infolist ++ delegators.filter (fun d => decide (d.PublicKey = publicKey)) := by
  induction delegators generalizing infolist with
  | nil => simp [appendMatching]
  | cons d ds ih =>
    have step : appendMatching publicKey infolist (d :: ds) =
        appendMatching publicKey (if d.PublicKey = publicKey then infolist ++ [d] else infolist)
          ds := rfl
    rw [step, ih]
    by_cases h : d.PublicKey = publicKey <;> simp [h]

theorem foldl_appendMatching_eq (publicKey : String) (bids : List BidInfo)
    (infolist : List StackInfo) :
    bids.foldl (fun acc b => appendMatching publicKey acc b.Bid.Delegators) infolist =
      infolist ++ bids.flatMap
        (fun b => b.Bid.Delegators.filter (fun d => decide (d.PublicKey = publicKey))) := by
  induction bids generalizing infolist with
  | nil => simp
  | cons b bs ih =>
    rw [List.foldl_cons, ih, appendMatching_eq, List.flatMap_cons, List.append_assoc]

theorem collectStacking_eq (publicKey : String) (bids : List BidInfo) :
    collectStacking publicKey bids =
      bids.flatMap
        (fun b => b.Bid.Delegators.filter (fun d => decide (d.PublicKey = publicKey))) := by
  simp [collectStacking, foldl_appendMatching_eq]

/-- Claim C5. When the auction snapshot `v` is fetched and decoded without error,
`GetStackingBalance` returns, with no error, the concatenation in bid order of the delegators of
each bid filtered (order kept) to those whose `PublicKey` equals `publicKey`; when no delegator of
any bid matches, that list is empty and there is still no error. -/
theorem GetStackingBalance_filter (env : Env) (c : RpcClient) (publicKey : String)
    (sent sent1 : List Json) (v : ValidatorPesponse)
    (hv : GetValidator env c sent = (Outcome.ret (v, none), sent1)) :
    GetStackingBalance env c publicKey sent =
      (Outcome.ret (v.AuctionState.Bids.flatMap
          (fun b => b.Bid.Delegators.filter (fun d => decide (d.PublicKey = publicKey))), none),
        sent1) ∧
    ((∀ b ∈ v.AuctionState.Bids, ∀ d ∈ b.Bid.Delegators, d.PublicKey ≠ publicKey) →
      GetStackingBalance env c publicKey sent = (Outcome.ret ([], none), sent1)) := by
  have hres : GetStackingBalance env c publicKey sent =
      (Outcome.ret (v.AuctionState.Bids.flatMap
          (fun b => b.Bid.Delegators.filter (fun d => decide (d.PublicKey = publicKey))), none),
        sent1) := by
    simp [GetStackingBalance, bind, Client.bind, pure, hv, collectStacking_eq]
  refine ⟨hres, fun hno => ?_⟩
  rw [hres]
  have hnil : v.AuctionState.Bids.flatMap
      (fun b => b.Bid.Delegators.filter (fun d => decide (d.PublicKey = publicKey))) = [] := by
    simp only [List.flatMap_eq_nil_iff, List.filter_eq_nil_iff]
    intro b hb d hd
    simpa using hno b hb d hd
  rw [hnil]

/-- Claim C5 on the sample snapshot and the key `k1`: three records, in snapshot order. -/
theorem GetStackingBalance_filter_witness :
    GetStackingBalance (envOk "0" {}) sampleClient "k1" [] =
      (Outcome.ret (sampleBids.flatMap
          (fun b => b.Bid.Delegators.filter (fun d => decide (d.PublicKey = "k1"))), none),
        [rpcBody "state_get_auction_info" Json.null]) ∧
    sampleBids.flatMap (fun b => b.Bid.Delegators.filter (fun d => decide (d.PublicKey = "k1"))) =
      [{ PublicKey := "k1", StakedAmount := 5, Delegatee := "v1" },
       { PublicKey := "k1", StakedAmount := 11, Delegatee := "v1" },
       { PublicKey := "k1", StakedAmount := 13, Delegatee := "v2" }] :=
  ⟨(GetStackingBalance_filter (envOk "0" {}) sampleClient "k1" []
      [rpcBody "state_get_auction_info" Json.null] { AuctionState := { Bids := sampleBids } }
      rfl).1, rfl⟩

/-! ## `GetAccountMainPurseURef` -/

theorem GetStateItem_sent (env : Env) (c : RpcClient) (stateRootHash key : String)
    (sent : List Json) :
    (GetStateItem env c stateRootHash key [] sent).2 =
      sent ++ [rpcBody "state_get_item"
        (Json.obj [("key", Json.str key), ("state_root_hash", Json.str stateRootHash)])] := by
  obtain ⟨⟨resp, err⟩, hcall⟩ := rpcCall_returns env c "state_get_item"
    (Json.obj [("key", Json.str key), ("state_root_hash", Json.str stateRootHash)]) sent
  cases err with
  | some e => simp [GetStateItem, bind, Client.bind, pure, hcall]
  | none =>
    cases hdec : env.codec.unmarshalStoredValueResult resp.Result <;>
      simp [GetStateItem, bind, Client.bind, pure, hcall, hdec]

/-- Claim C8. If the latest-block fetch fails, `GetAccountMainPurseURef` returns the empty string
having posted only the `chain_get_block` request (no state-item query); if the fetch succeeds and
the state-item query under the state root hash of that block fails, it returns the empty string
too. In both cases it returns normally and no error reaches the caller. -/
theorem GetAccountMainPurseURef_swallows (env : Env) (c : RpcClient) (accountHash : String)
    (sent : List Json) :
    (∀ (block : BlockResponse) (e : String) (sent1 : List Json),
      GetLatestBlock env c sent = (Outcome.ret (block, some e), sent1) →
      GetAccountMainPurseURef env c accountHash sent =
        (Outcome.ret "", sent ++ [rpcBody "chain_get_block" Json.null])) ∧
    (∀ (block : BlockResponse) (sent1 : List Json) (item : StoredValue) (e : String)
      (sent2 : List Json),
      GetLatestBlock env c sent = (Outcome.ret (block, none), sent1) →
      GetStateItem env c block.Header.StateRootHash accountHash [] sent1 =
        (Outcome.ret (item, some e), sent2) →
      GetAccountMainPurseURef env c accountHash sent =
        (Outcome.ret "", sent ++ [rpcBody "chain_get_block" Json.null,
          rpcBody "state_get_item" (Json.obj [("key", Json.str accountHash),
            ("state_root_hash", Json.str block.Header.StateRootHash)])])) := by
  constructor
  · intro block e sent1 hblock
    have hsent1 : sent1 = sent ++ [rpcBody "chain_get_block" Json.null] := by
      have h := GetLatestBlock_sent env c sent
      rw [hblock] at h
      exact h
    subst hsent1
    simp [GetAccountMainPurseURef, bind, Client.bind, pure, hblock]
  · intro block sent1 item e sent2 hblock hitem
    have hsent1 : sent1 = sent ++ [rpcBody "chain_get_block" Json.null] := by
      have h := GetLatestBlock_sent env c sent
      rw [hblock] at h
      exact h
    have hsent2 : sent2 = sent1 ++ [rpcBody "state_get_item" (Json.obj
        [("key", Json.str accountHash),
          ("state_root_hash", Json.str block.Header.StateRootHash)])] := by
      have h := GetStateItem_sent env c block.Header.StateRootHash accountHash sent1
      rw [hitem] at h
      exact h
    subst hsent2
    subst hsent1
    simp [GetAccountMainPurseURef, bind, Client.bind, pure, hblock, hitem]

/-- Claim C8 on a node that cannot be reached, and on a node whose `state_get_item` fails. -/
theorem GetAccountMainPurseURef_swallows_witness :
    GetAccountMainPurseURef envDown sampleClient "account-hash-00" [] =
      (Outcome.ret "", [] ++ [rpcBody "chain_get_block" Json.null]) ∧
    GetAccountMainPurseURef envItemFails sampleClient "account-hash-00" [] =
      (Outcome.ret "", [] ++ [rpcBody "chain_get_block" Json.null,
        rpcBody "state_get_item" (Json.obj [("key", Json.str "account-hash-00"),
          ("state_root_hash", Json.str "s0")])]) :=
  ⟨(GetAccountMainPurseURef_swallows envDown sampleClient "account-hash-00" []).1
      {} "failed to make request: dial tcp: connection refused"
      [rpcBody "chain_get_block" Json.null] rfl,
    (GetAccountMainPurseURef_swallows envItemFails sampleClient "account-hash-00" []).2
      { Header := { StateRootHash := "s0" } } [rpcBody "chain_get_block" Json.null] {}
      "rpc call failed, code - -32602, message - invalid params"
      [rpcBody "chain_get_block" Json.null,
        rpcBody "state_get_item" (Json.obj [("key", Json.str "account-hash-00"),
          ("state_root_hash", Json.str "s0")])] rfl rfl⟩

/-! ## `GetAccountBalanceByKeypair` -/

/-- Whenever the state-item query succeeds with a stored value whose `Account` is nil,
`GetAccountBalanceByKeypair` dereferences a nil pointer at `item.Account.MainPurse`. -/
theorem GetAccountBalanceByKeypair_nil_account (env : Env) (c : RpcClient)
    (stateRootHash : String) (key : KeyPair) (sent sent1 : List Json) (item : StoredValue)
    (hnil : item.Account = none)
    (hitem : GetStateItem env c stateRootHash key.AccountHash [] sent =
      (Outcome.ret (item, none), sent1)) :
    GetAccountBalanceByKeypair env c stateRootHash key sent = (Outcome.nilDeref, sent1) := by
  simp [GetAccountBalanceByKeypair, bind, Client.bind, hitem, hnil, deref]

/-- Claim C9, evaluated. When the stored value holds only a `CLValue`, and when it is empty,
`GetAccountBalanceByKeypair` does not return an error: it aborts on a nil pointer dereference,
having posted only the `state_get_item` request. -/
theorem GetAccountBalanceByKeypair_aborts :
    GetAccountBalanceByKeypair (envOk "1000" storedCLValue) sampleClient "s0"
        { AccountHash := "account-hash-00" } [] =
      (Outcome.nilDeref, [rpcBody "state_get_item" (Json.obj
        [("key", Json.str "account-hash-00"), ("state_root_hash", Json.str "s0")])]) ∧
    GetAccountBalanceByKeypair (envOk "1000" {}) sampleClient "s0"
        { AccountHash := "account-hash-00" } [] =
      (Outcome.nilDeref, [rpcBody "state_get_item" (Json.obj
        [("key", Json.str "account-hash-00"), ("state_root_hash", Json.str "s0")])]) :=
  ⟨rfl, rfl⟩

/-! ## `GetBlockByHeight` -/

theorem GetBlockByHeight_sent (env : Env) (c : RpcClient) (height : Nat) (sent : List Json) :
    (GetBlockByHeight env c height sent).2 =
      sent ++ [rpcBody "chain_get_block"
        (marshalBlockParams { BlockIdentifier := { Height := height } })] := by
  obtain ⟨⟨resp, err⟩, hcall⟩ := rpcCall_returns env c "chain_get_block"
    (marshalBlockParams { BlockIdentifier := { Height := height } }) sent
  cases err with
  | some e => simp [GetBlockByHeight, bind, Client.bind, pure, hcall]
  | none =>
    cases hdec : env.codec.unmarshalBlockResult resp.Result <;>
      simp [GetBlockByHeight, bind, Client.bind, pure, hcall, hdec]

/-- For a positive height the identifier carries exactly the field `Height`. -/
theorem GetBlockByHeight_params_pos (env : Env) (c : RpcClient) (height : Nat)
    (sent : List Json) (hpos : 0 < height) :
    (GetBlockByHeight env c height sent).2 =
      sent ++ [rpcBody "chain_get_block"
        (Json.obj [("block_identifier", Json.obj [("Height", Json.num (height : Int))])])] := by
  have h : height ≠ 0 := by omega
  rw [GetBlockByHeight_sent]
  simp [marshalBlockParams, marshalBlockIdentifier, h]

/-- Claim C10, evaluated at height 0. The request `GetBlockByHeight(0)` posts carries a
`block_identifier` object with no field at all: `omitempty` drops `Height` when it is 0, so the
request does not name block 0. -/
theorem GetBlockByHeight_zero_params (env : Env) (c : RpcClient) (sent : List Json) :
    marshalBlockParams { BlockIdentifier := { Height := 0 } } =
      Json.obj [("block_identifier", Json.obj [])] ∧
    (GetBlockByHeight env c 0 sent).2 =
      sent ++ [rpcBody "chain_get_block" (Json.obj [("block_identifier", Json.obj [])])] := by
  refine ⟨rfl, ?_⟩
  rw [GetBlockByHeight_sent]
  rfl

/-! ## `SetString` on base-10 renderings -/

theorem digitChar_scanned :
    ∀ d, d < 10 → ('0' ≤ Nat.digitChar d ∧ Nat.digitChar d ≤ '9') ∧
      (Nat.digitChar d).toNat - '0'.toNat = d := by
  decide

theorem natScan_digit (d : Nat) (hd : d < 10) (rest : List Char) (acc count : Nat) :
    natScan (Nat.digitChar d :: rest) acc count = natScan rest (10 * acc + d) (count + 1) := by
  obtain ⟨hrange, hval⟩ := digitChar_scanned d hd
  simp only [natScan, hrange, and_self, if_true, hval]

theorem toDigitsCore_append (b fuel : Nat) :
    ∀ (n : Nat) (ds : List Char),
      Nat.toDigitsCore b fuel n ds = Nat.toDigitsCore b fuel n [] ++ ds := by
  induction fuel with
  | zero => intro n ds; simp [Nat.toDigitsCore]
  | succ f ih =>
    intro n ds
    simp only [Nat.toDigitsCore]
    by_cases h0 : n / b = 0
    · simp [h0]
    · simp only [h0, if_false]
      rw [ih (n / b) (Nat.digitChar (n % b) :: ds), ih (n / b) [Nat.digitChar (n % b)]]
      simp

/-- Scanning the decimal digits of `n` multiplies the accumulator by a power of ten and adds `n`;
at least one digit is read. -/
theorem natScan_toDigitsCore (fuel : Nat) :
    ∀ n, n < fuel → ∃ k, 0 < k ∧ ∀ (acc count : Nat) (rest : List Char),
      natScan (Nat.toDigitsCore 10 fuel n [] ++ rest) acc count =
        natScan rest (acc * 10 ^ k + n) (count + k) := by
  induction fuel with
  | zero => intro n hn; omega
  | succ f ih =>
    intro n hn
    simp only [Nat.toDigitsCore]
    by_cases h0 : n / 10 = 0
    · have hlt : n < 10 := by omega
      have hmod : n % 10 = n := Nat.mod_eq_of_lt hlt
      refine ⟨1, by omega, fun acc count rest => ?_⟩
      simp only [h0, if_true, hmod, List.cons_append, List.nil_append]
      rw [natScan_digit n hlt]
      congr 1
      omega
    · have hdiv : n / 10 < f := by omega
      obtain ⟨k, hk, hscan⟩ := ih (n / 10) hdiv
      refine ⟨k + 1, by omega, fun acc count rest => ?_⟩
      simp only [h0, if_false]
      rw [toDigitsCore_append 10 f (n / 10) [Nat.digitChar (n % 10)], List.append_assoc,
        hscan, List.cons_append, List.nil_append,
        natScan_digit (n % 10) (Nat.mod_lt n (by omega))]
      have hval : 10 * (acc * 10 ^ k + n / 10) + n % 10 = acc * 10 ^ (k + 1) + n := by
        rw [Nat.pow_succ]
        have := Nat.div_add_mod n 10
        nlinarith
      rw [hval, Nat.add_assoc]

/-- A text made of one or more decimal digits and nothing else is accepted by `SetString`, with
the scanned value. -/
theorem SetString_of_scan (z : Int) (l : List Char) (n k : Nat) (hk : 0 < k)
    (hscan : natScan l 0 0 = (n, k, [])) : SetString z (String.mk l) = ((n : Int), true) := by
  cases l with
  | nil =>
    simp [natScan] at hscan
    omega
  | cons ch tl =>
    by_cases hdig : '0' ≤ ch ∧ ch ≤ '9'
    · have hminus : ch ≠ '-' := by
        rintro rfl
        exact absurd hdig (by decide)
      have hplus : ch ≠ '+' := by
        rintro rfl
        exact absurd hdig (by decide)
      have hk0 : k ≠ 0 := by omega
      simp [SetString, hminus, hplus, hscan, hk0]
    · simp [natScan, hdig] at hscan

/-- The call `SetString` reads back the base-10 rendering of every natural number. -/
theorem SetString_toString (z : Int) (n : Nat) : SetString z (toString n) = ((n : Int), true) := by
  obtain ⟨k, hk, hscan⟩ := natScan_toDigitsCore (n + 1) n (by omega)
  have h := hscan 0 0 []
  simp only [List.append_nil, Nat.zero_mul, Nat.zero_add, natScan] at h
  exact SetString_of_scan z (Nat.toDigits 10 n) n k hk h

/-! ## `GetAccountBalance` -/

/-- After a successful `state_get_balance` reply `GetAccountBalance` returns the value
`SetString` left in the receiver and a nil error, whatever the text `balance_value` is. -/
theorem GetAccountBalance_decoded (env : Env) (c : RpcClient) (stateRootHash balanceUref : String)
    (sent : List Json) (s : Int) (b : String) (resp : RpcResponse) (value : String)
    (hlo : 200 ≤ s) (hhi : s ≤ 299)
    (hnet : env.net c.endpoint sent (rpcBody "state_get_balance" (Json.obj
      [("purse_uref", Json.str balanceUref), ("state_root_hash", Json.str stateRootHash)])) =
        HttpResult.response s b)
    (hdec : env.codec.unmarshalRpcResponse b = Except.ok resp) (herr : resp.Error = none)
    (hbal : env.codec.unmarshalBalanceResponse resp.Result =
      Except.ok { BalanceValue := value }) :
    GetAccountBalance env c stateRootHash balanceUref sent =
      (Outcome.ret (some (SetString 0 value).1, none),
        sent ++ [rpcBody "state_get_balance" (Json.obj
          [("purse_uref", Json.str balanceUref),
            ("state_root_hash", Json.str stateRootHash)])]) := by
  have hcall := rpcCall_success env c "state_get_balance" (Json.obj
    [("purse_uref", Json.str balanceUref), ("state_root_hash", Json.str stateRootHash)])
    sent s b resp hlo (by omega) hnet hdec herr
  simp [GetAccountBalance, bind, Client.bind, pure, hcall, hbal]

/-- Claim C7. For every natural number `n`, when the successful `state_get_balance` reply carries
as `balance_value` the base-10 rendering of `n`, `GetAccountBalance` returns exactly `n` with no
error, and rendering the returned integer in base 10 gives back the same text. -/
theorem GetAccountBalance_roundtrip (env : Env) (c : RpcClient)
    (stateRootHash balanceUref : String) (sent : List Json) (s : Int) (b : String)
    (resp : RpcResponse) (n : Nat) (hlo : 200 ≤ s) (hhi : s ≤ 299)
    (hnet : env.net c.endpoint sent (rpcBody "state_get_balance" (Json.obj
      [("purse_uref", Json.str balanceUref), ("state_root_hash", Json.str stateRootHash)])) =
        HttpResult.response s b)
    (hdec : env.codec.unmarshalRpcResponse b = Except.ok resp) (herr : resp.Error = none)
    (hbal : env.codec.unmarshalBalanceResponse resp.Result =
      Except.ok { BalanceValue := toString n }) :
    ∃ balance : Int,
      GetAccountBalance env c stateRootHash balanceUref sent =
        (Outcome.ret (some balance, none),
          sent ++ [rpcBody "state_get_balance" (Json.obj
            [("purse_uref", Json.str balanceUref),
              ("state_root_hash", Json.str stateRootHash)])]) ∧
      balance = (n : Int) ∧ toString balance = toString n := by
  refine ⟨(n : Int), ?_, rfl, rfl⟩
  rw [GetAccountBalance_decoded env c stateRootHash balanceUref sent s b resp (toString n)
    hlo hhi hnet hdec herr hbal, SetString_toString]

/-- Claim C7 on the balance `123456789012345678901234567890`. -/
theorem GetAccountBalance_roundtrip_witness :
    toString (123456789012345678901234567890 : Nat) = "123456789012345678901234567890" ∧
    ∃ balance : Int,
      GetAccountBalance (envOk "123456789012345678901234567890" {}) sampleClient "s0" "uref-1" [] =
        (Outcome.ret (some balance, none),
          [] ++ [rpcBody "state_get_balance" (Json.obj
            [("purse_uref", Json.str "uref-1"), ("state_root_hash", Json.str "s0")])]) ∧
      balance = ((123456789012345678901234567890 : Nat) : Int) ∧
      toString balance = toString (123456789012345678901234567890 : Nat) :=
  ⟨rfl,
    GetAccountBalance_roundtrip (envOk "123456789012345678901234567890" {}) sampleClient
      "s0" "uref-1" [] 200 "envelope: result" { Version := "2.0", Result := "result" }
      123456789012345678901234567890 (by decide) (by decide) rfl rfl rfl rfl⟩

/-- Claim C6, evaluated. For the `balance_value` texts `abc`, the empty text and `1.5`, none of
which is a base-10 integer, and for `-5`, which is negative, `GetAccountBalance` returns a
non-nil balance and a nil error: the flag returned by `SetString` is never looked at. -/
theorem GetAccountBalance_invalid_number :
    (SetString 0 "abc").2 = false ∧
    (∃ balance : Int,
      GetAccountBalance (envOk "abc" {}) sampleClient "s0" "uref-1" [] =
        (Outcome.ret (some balance, none),
          [rpcBody "state_get_balance" (Json.obj
            [("purse_uref", Json.str "uref-1"), ("state_root_hash", Json.str "s0")])])) ∧
    (SetString 0 "").2 = false ∧
    (∃ balance : Int,
      GetAccountBalance (envOk "" {}) sampleClient "s0" "uref-1" [] =
        (Outcome.ret (some balance, none),
          [rpcBody "state_get_balance" (Json.obj
            [("purse_uref", Json.str "uref-1"), ("state_root_hash", Json.str "s0")])])) ∧
    (SetString 0 "1.5").2 = false ∧
    (∃ balance : Int,
      GetAccountBalance (envOk "1.5" {}) sampleClient "s0" "uref-1" [] =
        (Outcome.ret (some balance, none),
          [rpcBody "state_get_balance" (Json.obj
            [("purse_uref", Json.str "uref-1"), ("state_root_hash", Json.str "s0")])])) ∧
    GetAccountBalance (envOk "-5" {}) sampleClient "s0" "uref-1" [] =
      (Outcome.ret (some (-5), none),
        [rpcBody "state_get_balance" (Json.obj
          [("purse_uref", Json.str "uref-1"), ("state_root_hash", Json.str "s0")])]) :=
  ⟨rfl, ⟨_, rfl⟩, rfl, ⟨_, rfl⟩, rfl, ⟨_, rfl⟩, rfl⟩

end Sdk
